import Mathlib

/-!
Verification development for the Sketch-Ai provider gateway.

The repository ships two versions of the gateway endpoint:
- `src/api/proxy.ts` — the original proxy (namespace `ProxyV1` below);
- the updated "2025" proxy with demo mode, provider-alias normalization and
  CORS handling, found in `src/unnamed/part_005` (namespace `ProxyV2` below).

Both are shallowly embedded here as pure Lean functions.  Network I/O is
modelled by an explicit oracle `Oracle : UpstreamCall → UpFields` giving, for
each outbound fetch the adapter performs, the values of exactly the JavaScript
expressions the adapter reads off the upstream response.  Thrown JavaScript
exceptions are modelled with `Except String`; the handler additionally returns
a trace recording credential-resolution activity and the list of outbound
network calls.
-/

/-- JavaScript string truthiness for possibly-undefined strings:
`undefined` and the empty string are falsy. -/
def jsTruthy : Option String → Bool
  | some s => s ≠ ""
  | none => false

/-- JavaScript `a || b` where `a` is a possibly-undefined string and the
result is coerced to a definite string (used for `x || ''` chains). -/
def jsOrS : Option String → String → String
  | some s, b => if s = "" then b else s
  | none, b => b

/-- JavaScript `a || b` where both sides are possibly-undefined strings. -/
def jsOrOpt : Option String → Option String → Option String
  | some s, b => if s = "" then b else some s
  | none, b => b

/-- A JavaScript template literal renders `undefined` as the text
`"undefined"`. -/
def undefStr : Option String → String
  | some s => s
  | none => "undefined"

/-- `payload` object of the inbound request body. -/
structure Payload where
  prompt : Option String
  deriving Repr, DecidableEq

/-- Parsed JSON body of an inbound request; every field may be absent. -/
structure ReqBody where
  provider : Option String
  apiKey : Option String
  type : Option String
  payload : Option Payload
  deriving Repr, DecidableEq

/-- An inbound HTTP request.  `body = .error m` models a body on which
`req.json()` throws with message `m`. -/
structure Request where
  method : String
  body : Except String ReqBody

/-- The JSON object shapes the gateway ever serializes into a response body.
Absent (`none`) fields model JavaScript `undefined` properties, which
`JSON.stringify` omits. -/
structure JsonBody where
  result : Option String := none
  error : Option String := none
  details : Option String := none
  status : Option String := none
  mode : Option String := none
  provider : Option String := none
  timestamp : Option String := none
  models : Option String := none
  deriving Repr, DecidableEq

/-- A response body: either raw text or a JSON object. -/
inductive Body where
  | text (s : String)
  | jsonB (b : JsonBody)
  deriving Repr, DecidableEq

/-- An outbound HTTP response. -/
structure HttpResponse where
  status : Nat
  body : Body
  headers : List (String × String)
  deriving Repr, DecidableEq

/-- Render one JSON field, omitted when the value is `undefined`. -/
def renderField (name : String) (v : Option String) : Option String :=
  v.map (fun s => "\"" ++ name ++ "\":\"" ++ s ++ "\"")

/-- `JSON.stringify` of a `JsonBody` (fields in declaration order,
`undefined` fields omitted — so the empty object prints as `\x7b\x7d`). -/
def serializeJsonBody (b : JsonBody) : String :=
  "\x7b" ++
    String.intercalate ","
      (List.filterMap id
        [renderField "result" b.result, renderField "error" b.error,
         renderField "details" b.details, renderField "status" b.status,
         renderField "mode" b.mode, renderField "provider" b.provider,
         renderField "timestamp" b.timestamp, renderField "models" b.models])
  ++ "\x7d"

/-- The byte content actually sent as the response body. -/
def serializeBody : Body → String
  | .text s => s
  | .jsonB b => serializeJsonBody b

/-- The null body statuses of the Fetch standard: a `Response` with one of
these status codes must not carry a body. -/
def nullBodyStatus (status : Nat) : Bool :=
  status == 101 || status == 204 || status == 205 || status == 304

/-- One outbound `fetch` performed by an adapter. -/
structure UpstreamCall where
  url : String
  method : String
  authKey : String
  prompt : Option String
  deriving Repr, DecidableEq

/-- The values of the JavaScript expressions an adapter evaluates on the
upstream response (`res.ok`, `res.status`, the optional-chained JSON field
reads, `res.text()`, the base64 of `res.blob()` bytes, ...). -/
structure UpFields where
  ok : Bool
  status : Nat
  errObj : Bool
  errMsg : Option String
  stabilityMessage : Option String
  geminiText : String
  openaiUrl : Option String
  openaiContent : Option String
  b64json : Option String
  hfIsArray : Bool
  hfGenText : Option String
  hfStringified : String
  hfErrText : String
  hfBlobB64 : String
  artifactB64 : Option String
  deepErr : Option String
  outputUrl : Option String
  nbOutput : Option String
  nbResult : Option String
  modelsVal : Option String
  deriving Repr, DecidableEq

/-- The upstream world: what each outbound call observes. -/
def Oracle : Type := UpstreamCall → UpFields

/-- Result of running one adapter: the response it returned or the exception
it threw, together with the outbound calls it performed. -/
def AdapterOut : Type := Except String HttpResponse × List UpstreamCall

namespace ProxyV2

/-! Embedding of the updated proxy endpoint found in `src/unnamed/part_005`
(lines 971–1348): OPTIONS/CORS handling, provider alias normalization,
env-key auto-injection, demo mode, and the five dispatched adapters. -/

/-- The process environment variables this proxy reads. -/
structure Env where
  DEMO_MODE : Option String
  VITE_DEMO_MODE : Option String
  GEMINI_API_KEY : Option String
  VITE_GEMINI_API_KEY : Option String
  OPENAI_API_KEY : Option String
  VITE_OPENAI_API_KEY : Option String
  HF_API_KEY : Option String
  HUGGINGFACE_API_KEY : Option String
  STABILITY_API_KEY : Option String
  STABILITYAI_API_KEY : Option String
  deriving Repr, DecidableEq

/-- `process.env.DEMO_MODE === 'true' || process.env.VITE_DEMO_MODE === 'true'`. -/
def demoEnabled (env : Env) : Bool :=
  env.DEMO_MODE = some "true" || env.VITE_DEMO_MODE = some "true"

/-- Trace of the handler's side activity on one request. -/
structure Trace where
  envLookup : Bool
  placeholder : Bool
  resolvedKey : Option String
  calls : List UpstreamCall
  deriving Repr, DecidableEq

/-- Trace of a request that neither resolved credentials nor called upstream. -/
def emptyTrace : Trace :=
  { envLookup := false, placeholder := false, resolvedKey := none, calls := [] }

/-- The payload the `json(body, status)` helper passes to `new Response`:
the `JSON.stringify`-ed body plus the permissive cross-origin headers.
This models only the data handed to the `Response` constructor; the
constructor's own Fetch-standard validation — which rejects a (non-null)
string body combined with a null-body status — is modelled by `jsonFetch`
below.  Of all the helper's call sites only the OPTIONS branch uses a
null-body status (204). -/
def json (b : JsonBody) (status : Nat) : HttpResponse :=
  { status := status
    body := .jsonB b
    headers :=
      [("Content-Type", "application/json"),
       ("Access-Control-Allow-Origin", "*"),
       ("Access-Control-Allow-Methods", "POST, OPTIONS"),
       ("Access-Control-Allow-Headers", "Content-Type, Authorization")] }

/-- The `json` helper as a Fetch-conformant runtime executes it:
`JSON.stringify` always yields a string (a non-null body), and
`new Response(body, init)` throws a TypeError whenever a non-null body is
combined with a null-body status such as 204.  The Vercel edge runtime this
endpoint targets (`runtime: 'edge'`) enforces exactly this rule. -/
def jsonFetch (b : JsonBody) (status : Nat) : Except String HttpResponse :=
  if nullBodyStatus status then
    .error "Response constructor: Invalid response status code"
  else .ok (json b status)

/-- The `safe` dispatch-isolation wrapper: a returned response passes
through; a thrown error becomes the canonical 502 interference envelope. -/
def safe (r : Except String HttpResponse) (provider : String) : HttpResponse :=
  match r with
  | .ok resp => resp
  | .error m =>
      json
        { error := some ("Interference detected in " ++ provider ++ " sub-link.")
          details := some m
          status := some "interference" } 502

/-- Alias normalization: the four exact lowercase spellings are rewritten to
their canonical provider names; anything else passes through unchanged. -/
def normalizeProvider : Option String → Option String
  | some "gemini" => some "Gemini"
  | some "openai" => some "OpenAI"
  | some "huggingface" => some "Hugging Face"
  | some "stability" => some "Stability AI"
  | p => p

/-- Demo/test mode response handler (`demoHandler`).  `now` is the value of
`new Date().toISOString()` at response time. -/
def demoHandler (provider : String) (type : String) (payload : Payload)
    (now : String) : HttpResponse :=
  let prompt := jsOrS payload.prompt ""
  let mock :=
    match type with
    | "roadmap" =>
        "Generated learning roadmap: Foundation → Intermediate → Advanced → Mastery"
    | "synthesis" =>
        "Synthesized art direction with contemporary design principles"
    | "analysis" =>
        "Visual analysis complete. Technical composition identified."
    | "image" =>
        "data:image/svg+xml,%3Csvg xmlns=\"http://www.w3.org/2000/svg\" width=\"256\" height=\"256\"%3E%3Crect width=\"256\" height=\"256\" fill=\"%234a5568\"/%3E%3Ccircle cx=\"128\" cy=\"128\" r=\"64\" fill=\"%2363b3f5\"/%3E%3C/svg%3E"
    | _ =>
        let cut := prompt.take 50
        "Processed: " ++ cut ++ "... [" ++ provider ++ " | " ++ type ++ "]"
  json
    { result := some mock, mode := some "DEMO", provider := some provider,
      timestamp := some now } 200

/-- Gemini adapter (`handleGemini`, 2025 version). -/
def handleGemini (key : String) (type : String) (payload : Payload)
    (up : Oracle) : AdapterOut :=
  let model :=
    if type = "roadmap" then "models/gemini-pro-latest"
    else "models/gemini-flash-latest"
  let url := "https://generativelanguage.googleapis.com/v1beta/" ++ model
      ++ ":generateContent?key=" ++ key
  let call : UpstreamCall :=
    { url := url, method := "POST", authKey := key, prompt := payload.prompt }
  let d := up call
  if !d.ok then
    let st := d.status
    (.error (jsOrS d.errMsg s!"Gemini API error: {st}"), [call])
  else
    (.ok (json { result := some d.geminiText } 200), [call])

/-- `listGeminiModels`: the only adapter whose success body carries a
`models` field instead of `result`. -/
def listGeminiModels (key : String) (up : Oracle) : AdapterOut :=
  let url := "https://generativelanguage.googleapis.com/v1beta/models?key=" ++ key
  let call : UpstreamCall :=
    { url := url, method := "GET", authKey := key, prompt := none }
  let d := up call
  if !d.ok then
    (.error (jsOrS d.errMsg "Failed to list Gemini models"), [call])
  else
    (.ok (json { models := d.modelsVal } 200), [call])

/-- OpenAI adapter (`handleOpenAI`, 2025 version).  On success the `result`
field holds `data.data[0]?.url` (image) or `choices[0]?.message?.content`
(chat) — both possibly `undefined`. -/
def handleOpenAI (key : String) (type : String) (payload : Payload)
    (up : Oracle) : AdapterOut :=
  let isImage := type = "image"
  let url :=
    if isImage then "https://api.openai.com/v1/images/generations"
    else "https://api.openai.com/v1/chat/completions"
  let call : UpstreamCall :=
    { url := url, method := "POST", authKey := key, prompt := payload.prompt }
  let d := up call
  if !d.ok then
    let st := d.status
    (.error (jsOrS d.errMsg s!"OpenAI API error: {st}"), [call])
  else
    let output := if isImage then d.openaiUrl else d.openaiContent
    (.ok (json { result := output } 200), [call])

/-- Hugging Face adapter (`handleHuggingFace`, 2025 version). -/
def handleHuggingFace (key : String) (type : String) (payload : Payload)
    (up : Oracle) : AdapterOut :=
  let model :=
    if type = "image" then "stabilityai/stable-diffusion-xl-base-1.0"
    else "tiiuae/falcon-40b-instruct"
  let url := "https://api-inference.huggingface.co/models/" ++ model
  let call : UpstreamCall :=
    { url := url, method := "POST", authKey := key, prompt := payload.prompt }
  let d := up call
  if !d.ok then
    let st := d.status
    (.error (if d.hfErrText = "" then s!"Hugging Face error: {st}"
             else d.hfErrText), [call])
  else if type = "image" then
    (.ok (json { result := some ("data:image/png;base64," ++ d.hfBlobB64) } 200),
     [call])
  else
    let text :=
      if d.hfIsArray then d.hfGenText
      else some (jsOrS d.hfGenText d.hfStringified)
    (.ok (json { result := text } 200), [call])

/-- Stability AI adapter (`handleStability`, 2025 version): throws outright
on any non-image kind, before any fetch. -/
def handleStability (key : String) (type : String) (payload : Payload)
    (up : Oracle) : AdapterOut :=
  if type ≠ "image" then
    (.error "Stability AI only supports image generation.", [])
  else
    let url :=
      "https://api.stability.ai/v1/generation/stable-diffusion-xl-1024-v1-0/text-to-image"
    let call : UpstreamCall :=
      { url := url, method := "POST", authKey := key, prompt := payload.prompt }
    let d := up call
    if !d.ok || jsTruthy d.stabilityMessage then
      let st := d.status
      (.error (jsOrS d.stabilityMessage s!"Stability AI error: {st}"), [call])
    else
      (.ok (json
        { result := some ("data:image/png;base64," ++ undefStr d.artifactB64) }
        200), [call])

/-- The environment-default credential for a canonical provider name, exactly
as read in the handler's auto-injection `switch`; `none` means the switch has
no case for this provider (no environment read happens). -/
def envDefaultFor (provider : Option String) (env : Env) : Option String :=
  match provider with
  | some "Gemini" | some "GeminiListModels" =>
      some (jsOrS env.GEMINI_API_KEY (jsOrS env.VITE_GEMINI_API_KEY ""))
  | some "OpenAI" =>
      some (jsOrS env.OPENAI_API_KEY (jsOrS env.VITE_OPENAI_API_KEY ""))
  | some "Hugging Face" =>
      some (jsOrS env.HF_API_KEY (jsOrS env.HUGGINGFACE_API_KEY ""))
  | some "Stability AI" =>
      some (jsOrS env.STABILITY_API_KEY (jsOrS env.STABILITYAI_API_KEY ""))
  | _ => none

/-- Credential resolution exactly as the handler performs it: the two
consecutive `if` statements (env auto-injection, then demo placeholder).
Returns the final `apiKey` value plus whether an environment read and/or a
placeholder substitution happened. -/
def resolveCredential (provider : Option String) (apiKey : Option String)
    (env : Env) (demo : Bool) : Option String × Bool × Bool :=
  let (k1, envLk) :=
    if !jsTruthy apiKey && !demo then
      match envDefaultFor provider env with
      | some v => (some v, true)
      | none => (apiKey, false)
    else (apiKey, false)
  if demo && !jsTruthy k1 then (some "DEMO_MODE_KEY", envLk, true)
  else (k1, envLk, false)

/-- The proxy endpoint handler of `src/unnamed/part_005`.  `now` is the
wall-clock ISO timestamp observed inside `demoHandler`. -/
def handler (req : Request) (env : Env) (up : Oracle) (now : String) :
    HttpResponse × Trace :=
  if req.method = "OPTIONS" then (json {} 204, emptyTrace)
  else if req.method ≠ "POST" then
    (json { error := some "Method Not Allowed" } 405, emptyTrace)
  else
    match req.body with
    | .error m =>
        (json { error := some "Invalid JSON in request body.", details := some m,
                status := some "invalid_json" } 400, emptyTrace)
    | .ok b =>
      let provider := normalizeProvider b.provider
      let demo := demoEnabled env
      let (apiKey, envLk, ph) := resolveCredential provider b.apiKey env demo
      let tr0 : Trace :=
        { envLookup := envLk, placeholder := ph, resolvedKey := apiKey,
          calls := [] }
      if !jsTruthy provider || !jsTruthy b.type
          || !jsTruthy (b.payload.bind Payload.prompt) || !jsTruthy apiKey then
        (json { error := some "Missing provider, API key, request type, or prompt.",
                details := some (if demo then "Demo mode enabled"
                                 else "Check environment variables"),
                status := some "invalid_request" } 400, tr0)
      else
        let p := provider.getD ""
        let ty := b.type.getD ""
        let pl := (b.payload.getD { prompt := none })
        if demo then (demoHandler p ty pl now, tr0)
        else
          let key := apiKey.getD ""
          match p with
          | "Gemini" =>
              let rc := handleGemini key ty pl up
              (safe rc.1 p, { tr0 with calls := rc.2 })
          | "OpenAI" =>
              let rc := handleOpenAI key ty pl up
              (safe rc.1 p, { tr0 with calls := rc.2 })
          | "Hugging Face" =>
              let rc := handleHuggingFace key ty pl up
              (safe rc.1 p, { tr0 with calls := rc.2 })
          | "Stability AI" =>
              let rc := handleStability key ty pl up
              (safe rc.1 p, { tr0 with calls := rc.2 })
          | "GeminiListModels" =>
              let rc := listGeminiModels key up
              (safe rc.1 p, { tr0 with calls := rc.2 })
          | _ =>
              (json { error := some (p ++ " is not yet supported."),
                      status := some "unsupported" } 501, tr0)

end ProxyV2

namespace ProxyV1

/-! Embedding of the original proxy endpoint `src/api/proxy.ts`: env-default
credential support (including the `'DEFAULT'` sentinel), ten provider cases,
and the `safeHandle` isolation wrapper. -/

/-- Trace of the legacy handler's activity on one request. -/
structure PTrace where
  resolvedKey : Option String
  calls : List UpstreamCall
  deriving Repr, DecidableEq

/-- Trace of a request that made no outbound call. -/
def emptyPTrace : PTrace := { resolvedKey := none, calls := [] }

/-- A JSON response carrying only the `Content-Type` header, as produced by
the legacy adapters and error paths. -/
def jsonCT (b : JsonBody) (status : Nat) : HttpResponse :=
  { status := status, body := .jsonB b,
    headers := [("Content-Type", "application/json")] }

/-- A JSON response with no headers at all (`new Response(JSON.stringify(x),
\x7b status \x7d)`), as produced by the legacy 400/501 branches. -/
def jsonBare (b : JsonBody) (status : Nat) : HttpResponse :=
  { status := status, body := .jsonB b, headers := [] }

/-- The `safeHandle` dispatch-isolation wrapper of the legacy proxy. -/
def safeHandle (r : Except String HttpResponse) (provider : String) :
    HttpResponse :=
  match r with
  | .ok resp => resp
  | .error m =>
      jsonCT
        { error := some ("Interference detected in " ++ provider ++ " sub-link.")
          details := some m
          status := some "interference" } 502

/-- `provider.toUpperCase().replace(/\s/g, '_') + '_API_KEY'`. -/
def envKeyName (provider : String) : String :=
  String.mk (provider.data.map
      (fun c => if c.isWhitespace then '_' else c.toUpper))
    ++ "_API_KEY"

/-- Legacy Gemini adapter. -/
def handleGemini (key : String) (type : String) (payload : Payload)
    (up : Oracle) : AdapterOut :=
  let model := if type = "roadmap" then "gemini-1.5-pro" else "gemini-1.5-flash"
  let url := "https://generativelanguage.googleapis.com/v1beta/models/" ++ model
      ++ ":generateContent?key=" ++ key
  let call : UpstreamCall :=
    { url := url, method := "POST", authKey := key, prompt := payload.prompt }
  let d := up call
  if d.errObj then (.error (d.errMsg.getD ""), [call])
  else (.ok (jsonCT { result := some d.geminiText } 200), [call])

/-- Legacy OpenAI adapter. -/
def handleOpenAI (key : String) (type : String) (payload : Payload)
    (up : Oracle) : AdapterOut :=
  let isImage := type = "image"
  let url :=
    if isImage then "https://api.openai.com/v1/images/generations"
    else "https://api.openai.com/v1/chat/completions"
  let call : UpstreamCall :=
    { url := url, method := "POST", authKey := key, prompt := payload.prompt }
  let d := up call
  if d.errObj then (.error (d.errMsg.getD ""), [call])
  else
    let output :=
      if isImage then some ("data:image/png;base64," ++ undefStr d.b64json)
      else d.openaiContent
    (.ok (jsonCT { result := output } 200), [call])

/-- Legacy generic fallback: a fixed 501 with no outbound call. -/
def handleGeneric (provider : String) (key : String) (type : String)
    (payload : Payload) : AdapterOut :=
  (.ok (jsonBare
    { error := some (provider ++
        " expansion in progress. This engine is currently restricted to textual synthesis.") }
    501), [])

/-- Legacy Stability adapter: roadmap requests divert to the generic 501
path; image requests hit the SDXL endpoint. -/
def handleStability (key : String) (type : String) (payload : Payload)
    (up : Oracle) : AdapterOut :=
  if type = "roadmap" then handleGeneric "Stability AI Text" key type payload
  else
    let url :=
      "https://api.stability.ai/v1/generation/stable-diffusion-xl-1024-v1-0/text-to-image"
    let call : UpstreamCall :=
      { url := url, method := "POST", authKey := key, prompt := payload.prompt }
    let d := up call
    if jsTruthy d.stabilityMessage then
      (.error (d.stabilityMessage.getD ""), [call])
    else
      (.ok (jsonCT
        { result := some ("data:image/png;base64," ++ undefStr d.artifactB64) }
        200), [call])

/-- Legacy Hugging Face adapter (router.huggingface.co). -/
def handleHuggingFace (key : String) (type : String) (payload : Payload)
    (up : Oracle) : AdapterOut :=
  let model :=
    if type = "image" then "runwayml/stable-diffusion-v1-5"
    else "mistralai/Mistral-7B-Instruct-v0.2"
  let url := "https://router.huggingface.co/models/" ++ model
  let call : UpstreamCall :=
    { url := url, method := "POST", authKey := key, prompt := payload.prompt }
  let d := up call
  if !d.ok then
    let st := d.status
    (.error (if d.hfErrText = "" then s!"HF error: {st}" else d.hfErrText),
     [call])
  else if type = "image" then
    (.ok (jsonCT { result := some ("data:image/png;base64," ++ d.hfBlobB64) }
      200), [call])
  else
    (.ok (jsonCT { result := some (jsOrS d.hfGenText d.hfStringified) } 200),
     [call])

/-- Legacy DeepAI adapter: roadmap diverts to generic; image hits text2img. -/
def handleDeepAI (key : String) (type : String) (payload : Payload)
    (up : Oracle) : AdapterOut :=
  if type = "roadmap" then handleGeneric "DeepAI Text" key type payload
  else
    let call : UpstreamCall :=
      { url := "https://api.deepai.org/api/text2img", method := "POST",
        authKey := key, prompt := payload.prompt }
    let d := up call
    if jsTruthy d.deepErr then (.error (d.deepErr.getD ""), [call])
    else (.ok (jsonCT { result := d.outputUrl } 200), [call])

/-- Legacy NanoBanana adapter: no upstream error inspection at all; the
`result` field is `data.output || data.result`, possibly `undefined`. -/
def handleNanoBanana (key : String) (type : String) (payload : Payload)
    (up : Oracle) : AdapterOut :=
  let call : UpstreamCall :=
    { url := "https://api.nanobanana.com/v1/generate", method := "POST",
      authKey := key, prompt := payload.prompt }
  let d := up call
  (.ok (jsonCT { result := jsOrOpt d.nbOutput d.nbResult } 200), [call])

/-- Legacy RunwayML adapter: fixed 501, no outbound call. -/
def handleRunway (key : String) (type : String) (payload : Payload) :
    AdapterOut :=
  (.ok (jsonBare
    { error := some "RunwayML requires a persistent socket/polling which is restricted in this edge environment. Please use OpenAI or Stability for real-time deconstruction." }
    501), [])

/-- Legacy Artbreeder adapter: fixed 501, no outbound call. -/
def handleArtbreeder (key : String) (type : String) (payload : Payload) :
    AdapterOut :=
  (.ok (jsonBare
    { error := some "Artbreeder orchestration requires a valid mixer session. Please manifest utilizing the OpenAI or Stability engines for immediate deconstruction." }
    501), [])

/-- Legacy Midjourney adapter: fixed 501, no outbound call. -/
def handleMidjourney (key : String) (type : String) (payload : Payload) :
    AdapterOut :=
  (.ok (jsonBare
    { error := some "Midjourney orchestration is strictly restricted to valid Discord-bound tokens. Please ensure your Registry credentials are valid or utilize the Gemini engine." }
    501), [])

/-- Legacy Replicate adapter: throws when the key is falsy, else a fixed 501
with no outbound call. -/
def handleReplicate (key : String) (type : String) (payload : Payload) :
    AdapterOut :=
  if key = "" then (.error "Replicate API key required.", [])
  else
    (.ok (jsonBare
      { error := some "Replicate models require async polling not supported in this synchronous edge proxy. Please use Stability AI for immediate results." }
      501), [])

/-- The provider `switch` of the legacy handler: selects the adapter run
for a canonical provider name (every case of the source switch wraps its
adapter in `safeHandle`; the wrapping is applied uniformly at the call
site in `handler` below). -/
def dispatch (p key ty : String) (pl : Payload) (up : Oracle) : AdapterOut :=
  match p with
  | "Gemini" => handleGemini key ty pl up
  | "OpenAI" => handleOpenAI key ty pl up
  | "Stability AI" => handleStability key ty pl up
  | "DreamStudio" => handleStability key ty pl up
  | "Hugging Face" => handleHuggingFace key ty pl up
  | "DeepAI" => handleDeepAI key ty pl up
  | "NanoBanana" => handleNanoBanana key ty pl up
  | "Artbreeder" => handleArtbreeder key ty pl
  | "Midjourney" => handleMidjourney key ty pl
  | "RunwayML" => handleRunway key ty pl
  | "Replicate" => handleReplicate key ty pl
  | _ => handleGeneric p key ty pl

/-- The top-level fatal 500 envelope (`catch` in the legacy handler). -/
def fatal500 (m : String) : HttpResponse :=
  jsonCT
    { error := some ("Atelier Protocol Interference: "
        ++ jsOrS (some m) "Quantum instability detected.") } 500

/-- The proxy endpoint handler of `src/api/proxy.ts`.  The environment is an
arbitrary name-to-value map, read at `envKeyName provider`.  A missing
`provider` makes `provider.toUpperCase()` throw a TypeError, which the
top-level `catch` turns into the fatal 500 envelope. -/
def handler (req : Request) (env : String → Option String) (up : Oracle) :
    HttpResponse × PTrace :=
  if req.method ≠ "POST" then
    ({ status := 405, body := .text "Method Not Allowed", headers := [] },
     emptyPTrace)
  else
    match req.body with
    | .error m => (fatal500 m, emptyPTrace)
    | .ok b =>
      match b.provider with
      | none =>
          (fatal500 "Cannot read properties of undefined (reading 'toUpperCase')",
           emptyPTrace)
      | some p =>
        let defaultKey := env (envKeyName p)
        let apiKey :=
          if (!jsTruthy b.apiKey || b.apiKey == some "DEFAULT")
              && jsTruthy defaultKey then defaultKey
          else b.apiKey
        let tr0 : PTrace := { resolvedKey := apiKey, calls := [] }
        if p == "" || !jsTruthy apiKey || !jsTruthy b.type
            || b.payload.isNone then
          (jsonBare
            { error := some ("Missing " ++ jsOrS (some p) "AI"
                ++ " API key. Please update your Vault.") } 400, tr0)
        else
          let key := apiKey.getD ""
          let ty := b.type.getD ""
          let pl := b.payload.getD { prompt := none }
          let rc := dispatch p key ty pl up
          (safeHandle rc.1 p, { tr0 with calls := rc.2 })

end ProxyV1

/-! Concrete fixtures used by witnesses and counterexamples. -/

/-- Neutral upstream observation: a 200-OK response carrying no payload
fields. -/
def upBase : UpFields :=
  { ok := true, status := 200, errObj := false, errMsg := none,
    stabilityMessage := none, geminiText := "", openaiUrl := none,
    openaiContent := none, b64json := none, hfIsArray := false,
    hfGenText := none, hfStringified := "", hfErrText := "", hfBlobB64 := "",
    artifactB64 := none, deepErr := none, outputUrl := none, nbOutput := none,
    nbResult := none, modelsVal := none }

/-- An upstream that answers every call 200-OK with text `"out"`. -/
def oracleOk : Oracle := fun _ => { upBase with geminiText := "out" }

/-- An upstream that fails every call (HTTP 500, no parseable error field). -/
def oracleDown : Oracle := fun _ => { upBase with ok := false, status := 500 }

/-- An upstream whose model-listing endpoint returns a models array. -/
def oracleModels : Oracle := fun _ => { upBase with modelsVal := some "M" }

/-- A ProxyV2 environment with nothing configured. -/
def envNone : ProxyV2.Env :=
  { DEMO_MODE := none, VITE_DEMO_MODE := none, GEMINI_API_KEY := none,
    VITE_GEMINI_API_KEY := none, OPENAI_API_KEY := none,
    VITE_OPENAI_API_KEY := none, HF_API_KEY := none,
    HUGGINGFACE_API_KEY := none, STABILITY_API_KEY := none,
    STABILITYAI_API_KEY := none }

/-- Demo mode switched on, nothing else configured. -/
def envDemo : ProxyV2.Env := { envNone with DEMO_MODE := some "true" }

/-- Demo mode on and a Gemini environment default present. -/
def envDemoGem : ProxyV2.Env := { envDemo with GEMINI_API_KEY := some "realkey" }

/-- Demo mode off, a Gemini environment default present. -/
def envGem : ProxyV2.Env := { envNone with GEMINI_API_KEY := some "envkey" }

/-- A well-formed POST synthesis request. -/
def mkReq (provider apiKey type prompt : Option String) : Request :=
  { method := "POST",
    body := .ok { provider := provider, apiKey := apiKey, type := type,
                  payload := some { prompt := prompt } } }

/-- A well-formed POST request whose body has no `payload` object at all. -/
def mkReqNoPayload (provider apiKey type : Option String) : Request :=
  { method := "POST",
    body := .ok { provider := provider, apiKey := apiKey, type := type,
                  payload := none } }

/-- The JSON object of a response body (the empty object for raw-text
bodies, which carry no `result`/`error` fields). -/
def jsonOf : Body → JsonBody
  | .jsonB b => b
  | .text _ => {}

/-- `true` iff a response body populates both `result` and `error`. -/
def hasBothResultError (r : HttpResponse) : Bool :=
  (jsonOf r.body).result.isSome && (jsonOf r.body).error.isSome

/-- The canonical provider names the 2025 proxy dispatches to an adapter;
every other provider falls into the 501 `unsupported` branch. -/
def supportedProvidersV2 : List String :=
  ["Gemini", "OpenAI", "Hugging Face", "Stability AI", "GeminiListModels"]

/-- Modelled from the spec: the credential-resolution priority order exactly
as the specification (and claim C2) states it — explicit credential, then
provider environment default, then (only with demo mode on and nothing else
available) the placeholder, else no credential.  Used only to compare the
spec's claimed order against the implemented `ProxyV2.resolveCredential`. -/
def specCredentialOrder (explicit envDefault : Option String) (demo : Bool) :
    Option String :=
  if jsTruthy explicit then explicit
  else if jsTruthy envDefault then envDefault
  else if demo then some "DEMO_MODE_KEY"
  else none

/-! ### Helper lemmas -/

/-- Alias normalization never changes truthiness of the provider string. -/
theorem jsTruthy_normalize (x : Option String) :
    jsTruthy (ProxyV2.normalizeProvider x) = jsTruthy x := by
  unfold ProxyV2.normalizeProvider
  split <;> simp_all [jsTruthy]

/-- With demo mode on, credential resolution always produces a truthy key. -/
theorem resolve_demo_truthy (prov k : Option String) (env : ProxyV2.Env) :
    jsTruthy (ProxyV2.resolveCredential prov k env true).1 = true := by
  cases k with
  | none => simp [ProxyV2.resolveCredential, jsTruthy]
  | some s =>
      by_cases hs : s = "" <;>
        simp [ProxyV2.resolveCredential, jsTruthy, hs]

/-- `safe` preserves freedom from double-population. -/
theorem hasBoth_safe_of (r : Except String HttpResponse) (p : String)
    (h : ∀ resp, r = .ok resp → hasBothResultError resp = false) :
    hasBothResultError (ProxyV2.safe r p) = false := by
  cases r with
  | ok resp => exact h resp rfl
  | error m => simp [ProxyV2.safe, ProxyV2.json, hasBothResultError, jsonOf]

/-- `safeHandle` preserves freedom from double-population. -/
theorem hasBoth_safeHandle_of (r : Except String HttpResponse) (p : String)
    (h : ∀ resp, r = .ok resp → hasBothResultError resp = false) :
    hasBothResultError (ProxyV1.safeHandle r p) = false := by
  cases r with
  | ok resp => exact h resp rfl
  | error m =>
      simp [ProxyV1.safeHandle, ProxyV1.jsonCT, hasBothResultError, jsonOf]

theorem hasBoth_gemini (key ty : String) (pl : Payload) (up : Oracle) :
    ∀ resp, (ProxyV2.handleGemini key ty pl up).1 = .ok resp →
      hasBothResultError resp = false := by
  intro resp h
  unfold ProxyV2.handleGemini at h
  iterate 4
    all_goals try split at h
    all_goals try simp only at h
  all_goals simp at h
  all_goals subst h
  all_goals simp [ProxyV2.json, hasBothResultError, jsonOf]

theorem hasBoth_openai (key ty : String) (pl : Payload) (up : Oracle) :
    ∀ resp, (ProxyV2.handleOpenAI key ty pl up).1 = .ok resp →
      hasBothResultError resp = false := by
  intro resp h
  unfold ProxyV2.handleOpenAI at h
  iterate 4
    all_goals try split at h
    all_goals try simp only at h
  all_goals simp at h
  all_goals subst h
  all_goals simp [ProxyV2.json, hasBothResultError, jsonOf]

theorem hasBoth_hf (key ty : String) (pl : Payload) (up : Oracle) :
    ∀ resp, (ProxyV2.handleHuggingFace key ty pl up).1 = .ok resp →
      hasBothResultError resp = false := by
  intro resp h
  unfold ProxyV2.handleHuggingFace at h
  iterate 4
    all_goals try split at h
    all_goals try simp only at h
  all_goals simp at h
  all_goals subst h
  all_goals simp [ProxyV2.json, hasBothResultError, jsonOf]

theorem hasBoth_stability (key ty : String) (pl : Payload) (up : Oracle) :
    ∀ resp, (ProxyV2.handleStability key ty pl up).1 = .ok resp →
      hasBothResultError resp = false := by
  intro resp h
  unfold ProxyV2.handleStability at h
  iterate 4
    all_goals try split at h
    all_goals try simp only at h
  all_goals simp at h
  all_goals subst h
  all_goals simp [ProxyV2.json, hasBothResultError, jsonOf]

theorem hasBoth_listModels (key : String) (up : Oracle) :
    ∀ resp, (ProxyV2.listGeminiModels key up).1 = .ok resp →
      hasBothResultError resp = false := by
  intro resp h
  unfold ProxyV2.listGeminiModels at h
  iterate 4
    all_goals try split at h
    all_goals try simp only at h
  all_goals simp at h
  all_goals subst h
  all_goals simp [ProxyV2.json, hasBothResultError, jsonOf]

theorem hasBoth_safe_gemini (key ty : String) (pl : Payload) (up : Oracle)
    (p : String) :
    hasBothResultError
      (ProxyV2.safe (ProxyV2.handleGemini key ty pl up).1 p) = false :=
  hasBoth_safe_of _ _ (hasBoth_gemini key ty pl up)

theorem hasBoth_safe_openai (key ty : String) (pl : Payload) (up : Oracle)
    (p : String) :
    hasBothResultError
      (ProxyV2.safe (ProxyV2.handleOpenAI key ty pl up).1 p) = false :=
  hasBoth_safe_of _ _ (hasBoth_openai key ty pl up)

theorem hasBoth_safe_hf (key ty : String) (pl : Payload) (up : Oracle)
    (p : String) :
    hasBothResultError
      (ProxyV2.safe (ProxyV2.handleHuggingFace key ty pl up).1 p) = false :=
  hasBoth_safe_of _ _ (hasBoth_hf key ty pl up)

theorem hasBoth_safe_stability (key ty : String) (pl : Payload) (up : Oracle)
    (p : String) :
    hasBothResultError
      (ProxyV2.safe (ProxyV2.handleStability key ty pl up).1 p) = false :=
  hasBoth_safe_of _ _ (hasBoth_stability key ty pl up)

theorem hasBoth_safe_listModels (key : String) (up : Oracle) (p : String) :
    hasBothResultError
      (ProxyV2.safe (ProxyV2.listGeminiModels key up).1 p) = false :=
  hasBoth_safe_of _ _ (hasBoth_listModels key up)

theorem hasBoth_v1_gemini (key ty : String) (pl : Payload) (up : Oracle) :
    ∀ resp, (ProxyV1.handleGemini key ty pl up).1 = .ok resp →
      hasBothResultError resp = false := by
  intro resp h
  unfold ProxyV1.handleGemini at h
  iterate 4
    all_goals try split at h
    all_goals try simp only at h
  all_goals simp at h
  all_goals subst h
  all_goals simp [ProxyV1.jsonCT, hasBothResultError, jsonOf]

theorem hasBoth_v1_openai (key ty : String) (pl : Payload) (up : Oracle) :
    ∀ resp, (ProxyV1.handleOpenAI key ty pl up).1 = .ok resp →
      hasBothResultError resp = false := by
  intro resp h
  unfold ProxyV1.handleOpenAI at h
  iterate 4
    all_goals try split at h
    all_goals try simp only at h
  all_goals simp at h
  all_goals subst h
  all_goals simp [ProxyV1.jsonCT, hasBothResultError, jsonOf]

theorem hasBoth_v1_generic (pg key ty : String) (pl : Payload) :
    ∀ resp, (ProxyV1.handleGeneric pg key ty pl).1 = .ok resp →
      hasBothResultError resp = false := by
  intro resp h
  unfold ProxyV1.handleGeneric at h
  simp at h
  subst h
  simp [ProxyV1.jsonBare, hasBothResultError, jsonOf]

theorem hasBoth_v1_stability (key ty : String) (pl : Payload) (up : Oracle) :
    ∀ resp, (ProxyV1.handleStability key ty pl up).1 = .ok resp →
      hasBothResultError resp = false := by
  intro resp h
  unfold ProxyV1.handleStability ProxyV1.handleGeneric at h
  iterate 4
    all_goals try split at h
    all_goals try simp only at h
  all_goals simp at h
  all_goals subst h
  all_goals simp [ProxyV1.jsonCT, ProxyV1.jsonBare, hasBothResultError, jsonOf]

theorem hasBoth_v1_hf (key ty : String) (pl : Payload) (up : Oracle) :
    ∀ resp, (ProxyV1.handleHuggingFace key ty pl up).1 = .ok resp →
      hasBothResultError resp = false := by
  intro resp h
  unfold ProxyV1.handleHuggingFace at h
  iterate 4
    all_goals try split at h
    all_goals try simp only at h
  all_goals simp at h
  all_goals subst h
  all_goals simp [ProxyV1.jsonCT, hasBothResultError, jsonOf]

theorem hasBoth_v1_deepai (key ty : String) (pl : Payload) (up : Oracle) :
    ∀ resp, (ProxyV1.handleDeepAI key ty pl up).1 = .ok resp →
      hasBothResultError resp = false := by
  intro resp h
  unfold ProxyV1.handleDeepAI ProxyV1.handleGeneric at h
  iterate 4
    all_goals try split at h
    all_goals try simp only at h
  all_goals simp at h
  all_goals subst h
  all_goals simp [ProxyV1.jsonCT, ProxyV1.jsonBare, hasBothResultError, jsonOf]

theorem hasBoth_v1_nanobanana (key ty : String) (pl : Payload) (up : Oracle) :
    ∀ resp, (ProxyV1.handleNanoBanana key ty pl up).1 = .ok resp →
      hasBothResultError resp = false := by
  intro resp h
  unfold ProxyV1.handleNanoBanana at h
  simp at h
  subst h
  simp [ProxyV1.jsonCT, hasBothResultError, jsonOf]

theorem hasBoth_v1_runway (key ty : String) (pl : Payload) :
    ∀ resp, (ProxyV1.handleRunway key ty pl).1 = .ok resp →
      hasBothResultError resp = false := by
  intro resp h
  unfold ProxyV1.handleRunway at h
  simp at h
  subst h
  simp [ProxyV1.jsonBare, hasBothResultError, jsonOf]

theorem hasBoth_v1_artbreeder (key ty : String) (pl : Payload) :
    ∀ resp, (ProxyV1.handleArtbreeder key ty pl).1 = .ok resp →
      hasBothResultError resp = false := by
  intro resp h
  unfold ProxyV1.handleArtbreeder at h
  simp at h
  subst h
  simp [ProxyV1.jsonBare, hasBothResultError, jsonOf]

theorem hasBoth_v1_midjourney (key ty : String) (pl : Payload) :
    ∀ resp, (ProxyV1.handleMidjourney key ty pl).1 = .ok resp →
      hasBothResultError resp = false := by
  intro resp h
  unfold ProxyV1.handleMidjourney at h
  simp at h
  subst h
  simp [ProxyV1.jsonBare, hasBothResultError, jsonOf]

theorem hasBoth_v1_replicate (key ty : String) (pl : Payload) :
    ∀ resp, (ProxyV1.handleReplicate key ty pl).1 = .ok resp →
      hasBothResultError resp = false := by
  intro resp h
  unfold ProxyV1.handleReplicate at h
  iterate 2
    all_goals try split at h
    all_goals try simp only at h
  all_goals simp at h
  all_goals subst h
  all_goals simp [ProxyV1.jsonBare, hasBothResultError, jsonOf]

theorem hasBoth_sh_gemini (key ty : String) (pl : Payload) (up : Oracle)
    (p : String) :
    hasBothResultError
      (ProxyV1.safeHandle (ProxyV1.handleGemini key ty pl up).1 p) = false :=
  hasBoth_safeHandle_of _ _ (hasBoth_v1_gemini key ty pl up)

theorem hasBoth_sh_openai (key ty : String) (pl : Payload) (up : Oracle)
    (p : String) :
    hasBothResultError
      (ProxyV1.safeHandle (ProxyV1.handleOpenAI key ty pl up).1 p) = false :=
  hasBoth_safeHandle_of _ _ (hasBoth_v1_openai key ty pl up)

theorem hasBoth_sh_stability (key ty : String) (pl : Payload) (up : Oracle)
    (p : String) :
    hasBothResultError
      (ProxyV1.safeHandle (ProxyV1.handleStability key ty pl up).1 p) =
      false :=
  hasBoth_safeHandle_of _ _ (hasBoth_v1_stability key ty pl up)

theorem hasBoth_sh_hf (key ty : String) (pl : Payload) (up : Oracle)
    (p : String) :
    hasBothResultError
      (ProxyV1.safeHandle (ProxyV1.handleHuggingFace key ty pl up).1 p) =
      false :=
  hasBoth_safeHandle_of _ _ (hasBoth_v1_hf key ty pl up)

theorem hasBoth_sh_deepai (key ty : String) (pl : Payload) (up : Oracle)
    (p : String) :
    hasBothResultError
      (ProxyV1.safeHandle (ProxyV1.handleDeepAI key ty pl up).1 p) = false :=
  hasBoth_safeHandle_of _ _ (hasBoth_v1_deepai key ty pl up)

theorem hasBoth_sh_nanobanana (key ty : String) (pl : Payload) (up : Oracle)
    (p : String) :
    hasBothResultError
      (ProxyV1.safeHandle (ProxyV1.handleNanoBanana key ty pl up).1 p) =
      false :=
  hasBoth_safeHandle_of _ _ (hasBoth_v1_nanobanana key ty pl up)

theorem hasBoth_sh_artbreeder (key ty : String) (pl : Payload) (p : String) :
    hasBothResultError
      (ProxyV1.safeHandle (ProxyV1.handleArtbreeder key ty pl).1 p) = false :=
  hasBoth_safeHandle_of _ _ (hasBoth_v1_artbreeder key ty pl)

theorem hasBoth_sh_midjourney (key ty : String) (pl : Payload) (p : String) :
    hasBothResultError
      (ProxyV1.safeHandle (ProxyV1.handleMidjourney key ty pl).1 p) = false :=
  hasBoth_safeHandle_of _ _ (hasBoth_v1_midjourney key ty pl)

theorem hasBoth_sh_runway (key ty : String) (pl : Payload) (p : String) :
    hasBothResultError
      (ProxyV1.safeHandle (ProxyV1.handleRunway key ty pl).1 p) = false :=
  hasBoth_safeHandle_of _ _ (hasBoth_v1_runway key ty pl)

theorem hasBoth_sh_replicate (key ty : String) (pl : Payload) (p : String) :
    hasBothResultError
      (ProxyV1.safeHandle (ProxyV1.handleReplicate key ty pl).1 p) = false :=
  hasBoth_safeHandle_of _ _ (hasBoth_v1_replicate key ty pl)

theorem hasBoth_sh_generic (pg key ty : String) (pl : Payload) (p : String) :
    hasBothResultError
      (ProxyV1.safeHandle (ProxyV1.handleGeneric pg key ty pl).1 p) = false :=
  hasBoth_safeHandle_of _ _ (hasBoth_v1_generic pg key ty pl)

/-- No branch of the legacy provider switch can return a body populating
both `result` and `error`. -/
theorem hasBoth_dispatch (p key ty : String) (pl : Payload) (up : Oracle) :
    ∀ resp, (ProxyV1.dispatch p key ty pl up).1 = .ok resp →
      hasBothResultError resp = false := by
  intro resp h
  unfold ProxyV1.dispatch at h
  split at h
  · exact hasBoth_v1_gemini _ _ _ _ resp h
  · exact hasBoth_v1_openai _ _ _ _ resp h
  · exact hasBoth_v1_stability _ _ _ _ resp h
  · exact hasBoth_v1_stability _ _ _ _ resp h
  · exact hasBoth_v1_hf _ _ _ _ resp h
  · exact hasBoth_v1_deepai _ _ _ _ resp h
  · exact hasBoth_v1_nanobanana _ _ _ _ resp h
  · exact hasBoth_v1_artbreeder _ _ _ resp h
  · exact hasBoth_v1_midjourney _ _ _ resp h
  · exact hasBoth_v1_runway _ _ _ resp h
  · exact hasBoth_v1_replicate _ _ _ resp h
  · exact hasBoth_v1_generic _ _ _ _ resp h

/-- Composite form of the previous lemma through `safeHandle`. -/
theorem hasBoth_sh_dispatch (p key ty : String) (pl : Payload) (up : Oracle)
    (q : String) :
    hasBothResultError
      (ProxyV1.safeHandle (ProxyV1.dispatch p key ty pl up).1 q) = false :=
  hasBoth_safeHandle_of _ _ (hasBoth_dispatch p key ty pl up)

/-- Every outbound call the legacy Gemini adapter makes carries the key it
was given. -/
theorem authKey_v1_gemini (key ty : String) (pl : Payload) (up : Oracle) :
    ∀ c ∈ (ProxyV1.handleGemini key ty pl up).2, c.authKey = key := by
  intro c hc
  unfold ProxyV1.handleGemini at hc
  iterate 4
    all_goals try split at hc
    all_goals try simp only at hc
  all_goals simp at hc
  all_goals subst hc
  all_goals rfl

/-- Every outbound call the legacy OpenAI adapter makes carries its key. -/
theorem authKey_v1_openai (key ty : String) (pl : Payload) (up : Oracle) :
    ∀ c ∈ (ProxyV1.handleOpenAI key ty pl up).2, c.authKey = key := by
  intro c hc
  unfold ProxyV1.handleOpenAI at hc
  iterate 4
    all_goals try split at hc
    all_goals try simp only at hc
  all_goals simp at hc
  all_goals subst hc
  all_goals rfl

/-- Every outbound call the legacy Stability adapter makes carries its key. -/
theorem authKey_v1_stability (key ty : String) (pl : Payload) (up : Oracle) :
    ∀ c ∈ (ProxyV1.handleStability key ty pl up).2, c.authKey = key := by
  intro c hc
  unfold ProxyV1.handleStability ProxyV1.handleGeneric at hc
  iterate 4
    all_goals try split at hc
    all_goals try simp only at hc
  all_goals simp at hc
  all_goals subst hc
  all_goals rfl

/-- Every outbound call the legacy Hugging Face adapter makes carries its
key. -/
theorem authKey_v1_hf (key ty : String) (pl : Payload) (up : Oracle) :
    ∀ c ∈ (ProxyV1.handleHuggingFace key ty pl up).2, c.authKey = key := by
  intro c hc
  unfold ProxyV1.handleHuggingFace at hc
  iterate 4
    all_goals try split at hc
    all_goals try simp only at hc
  all_goals simp at hc
  all_goals subst hc
  all_goals rfl

/-- Every outbound call the legacy DeepAI adapter makes carries its key. -/
theorem authKey_v1_deepai (key ty : String) (pl : Payload) (up : Oracle) :
    ∀ c ∈ (ProxyV1.handleDeepAI key ty pl up).2, c.authKey = key := by
  intro c hc
  unfold ProxyV1.handleDeepAI ProxyV1.handleGeneric at hc
  iterate 4
    all_goals try split at hc
    all_goals try simp only at hc
  all_goals simp at hc
  all_goals subst hc
  all_goals rfl

/-- Every outbound call the legacy NanoBanana adapter makes carries its
key. -/
theorem authKey_v1_nanobanana (key ty : String) (pl : Payload) (up : Oracle) :
    ∀ c ∈ (ProxyV1.handleNanoBanana key ty pl up).2, c.authKey = key := by
  intro c hc
  unfold ProxyV1.handleNanoBanana at hc
  simp at hc
  subst hc
  rfl

/-- The fixed-policy legacy adapters make no outbound call at all. -/
theorem calls_v1_fixed (key ty : String) (pl : Payload) (pg : String) :
    (ProxyV1.handleRunway key ty pl).2 = []
    ∧ (ProxyV1.handleArtbreeder key ty pl).2 = []
    ∧ (ProxyV1.handleMidjourney key ty pl).2 = []
    ∧ (ProxyV1.handleReplicate key ty pl).2 = []
    ∧ (ProxyV1.handleGeneric pg key ty pl).2 = [] := by
  refine ⟨rfl, rfl, rfl, ?_, rfl⟩
  unfold ProxyV1.handleReplicate
  split <;> rfl

/-! ### Claim theorems -/

/-- C1: every exception an adapter throws is caught at the dispatch-wrapper
boundary (`safe` in the 2025 proxy, `safeHandle` in the legacy proxy) and
converted into the canonical 502 envelope whose `error` text names the
provider and whose `details` carries the underlying message; a returned
response passes through unchanged, so no adapter exception ever escapes the
wrapper.  The last conjunct checks the property end to end through the 2025
handler for a Gemini request whose adapter throws. -/
theorem dispatch_wrapper_converts_adapter_exceptions :
    (∀ m p, ProxyV2.safe (.error m) p =
      ProxyV2.json
        { error := some ("Interference detected in " ++ p ++ " sub-link."),
          details := some m, status := some "interference" } 502)
    ∧ (∀ r p, ProxyV2.safe (.ok r) p = r)
    ∧ (∀ m p, ProxyV1.safeHandle (.error m) p =
      ProxyV1.jsonCT
        { error := some ("Interference detected in " ++ p ++ " sub-link."),
          details := some m, status := some "interference" } 502)
    ∧ (∀ r p, ProxyV1.safeHandle (.ok r) p = r)
    ∧ (∀ (key ty prompt : String) (env : ProxyV2.Env) (up : Oracle)
        (now m : String),
        key ≠ "" → ty ≠ "" → prompt ≠ "" →
        ProxyV2.demoEnabled env = false →
        (ProxyV2.handleGemini key ty { prompt := some prompt } up).1 =
          .error m →
        (ProxyV2.handler (mkReq (some "Gemini") (some key) (some ty)
            (some prompt)) env up now).1 =
          ProxyV2.json
            { error := some "Interference detected in Gemini sub-link.",
              details := some m, status := some "interference" } 502) := by
  refine ⟨fun m p => rfl, fun r p => rfl, fun m p => rfl, fun r p => rfl, ?_⟩
  intro key ty prompt env up now m hk hty hp hdemo herr
  simp only [ProxyV2.handler, mkReq, ProxyV2.normalizeProvider,
    ProxyV2.resolveCredential, jsTruthy, hdemo, ProxyV2.envDefaultFor]
  simp [hk, hty, hp, herr, ProxyV2.safe]

/-- C1 witness: a Gemini request against an upstream that answers HTTP 500
is converted into the 502 interference envelope. -/
theorem dispatch_wrapper_converts_adapter_exceptions_witness :
    (ProxyV2.handleGemini "k" "text" { prompt := some "x" } oracleDown).1 =
      .error "Gemini API error: 500"
    ∧ (ProxyV2.handler (mkReq (some "Gemini") (some "k") (some "text")
        (some "x")) envNone oracleDown "T").1 =
      ProxyV2.json
        { error := some "Interference detected in Gemini sub-link.",
          details := some "Gemini API error: 500",
          status := some "interference" } 502 :=
  ⟨rfl,
   dispatch_wrapper_converts_adapter_exceptions.2.2.2.2 "k" "text" "x" envNone
     oracleDown "T" "Gemini API error: 500" (by decide) (by decide)
     (by decide) (by decide) rfl⟩

/-- C2 counterexample: with demo mode on, no explicit credential and a
Gemini environment default `"realkey"` present, the code resolves to the
placeholder `DEMO_MODE_KEY` — the environment default is skipped entirely —
whereas the claimed priority order (`specCredentialOrder`) would resolve to
`"realkey"`. -/
theorem credential_env_default_loses_to_placeholder :
    (ProxyV2.resolveCredential (some "Gemini") none envDemoGem true).1 =
      some "DEMO_MODE_KEY"
    ∧ ProxyV2.envDefaultFor (some "Gemini") envDemoGem = some "realkey"
    ∧ specCredentialOrder none
        (ProxyV2.envDefaultFor (some "Gemini") envDemoGem) true =
        some "realkey"
    ∧ (ProxyV2.handler (mkReq (some "Gemini") none (some "text") (some "x"))
        envDemoGem oracleOk "T").2.resolvedKey = some "DEMO_MODE_KEY"
    ∧ some "DEMO_MODE_KEY" ≠ (some "realkey" : Option String) :=
  ⟨by decide, by decide, by decide, by decide, by decide⟩

/-- C2 amended: credential resolution as implemented — an explicit truthy
credential always wins; with demo mode off the provider environment default
is injected when no explicit credential exists; with demo mode on the
placeholder is used whenever no explicit credential exists (environment
defaults are not consulted); the handler's resolved key is exactly
`resolveCredential`; and when resolution yields no truthy credential the
request fails 400/`invalid_request`. -/
theorem credential_resolution_implemented_order :
    (∀ prov k env demo, jsTruthy k = true →
      (ProxyV2.resolveCredential prov k env demo).1 = k)
    ∧ (∀ prov k env, jsTruthy k = false →
      (ProxyV2.resolveCredential prov k env false).1 =
        (match ProxyV2.envDefaultFor prov env with
         | some v => some v
         | none => k))
    ∧ (∀ prov k env, jsTruthy k = false →
      (ProxyV2.resolveCredential prov k env true).1 = some "DEMO_MODE_KEY")
    ∧ (∀ req env up now b, req.method = "POST" → req.body = .ok b →
      (ProxyV2.handler req env up now).2.resolvedKey =
        (ProxyV2.resolveCredential (ProxyV2.normalizeProvider b.provider)
          b.apiKey env (ProxyV2.demoEnabled env)).1)
    ∧ (∀ req env up now b, req.method = "POST" → req.body = .ok b →
      jsTruthy (ProxyV2.resolveCredential
          (ProxyV2.normalizeProvider b.provider) b.apiKey env
          (ProxyV2.demoEnabled env)).1 = false →
      (ProxyV2.handler req env up now).1.status = 400
      ∧ (jsonOf (ProxyV2.handler req env up now).1.body).status =
          some "invalid_request") := by
  refine ⟨?_, ?_, ?_, ?_, ?_⟩
  · intro prov k env demo hk
    simp [ProxyV2.resolveCredential, hk]
  · intro prov k env hk
    simp only [ProxyV2.resolveCredential, hk]
    cases ProxyV2.envDefaultFor prov env <;> simp
  · intro prov k env hk
    simp [ProxyV2.resolveCredential, hk]
  · intro req env up now b hm hb
    rcases hrc : ProxyV2.resolveCredential
        (ProxyV2.normalizeProvider b.provider) b.apiKey env
        (ProxyV2.demoEnabled env) with ⟨k, el, ph⟩
    simp only [ProxyV2.handler, hm, hb, hrc]
    simp only [String.reduceEq, reduceIte, ne_eq, not_false_eq_true, ite_not]
    split
    · rfl
    · split
      · rfl
      · split <;> rfl
  · intro req env up now b hm hb hk
    rcases hrc : ProxyV2.resolveCredential
        (ProxyV2.normalizeProvider b.provider) b.apiKey env
        (ProxyV2.demoEnabled env) with ⟨k, el, ph⟩
    rw [hrc] at hk
    simp only at hk
    simp only [ProxyV2.handler, hm, hb, hrc]
    simp only [String.reduceEq, reduceIte, ne_eq, not_false_eq_true, ite_not]
    simp [hk, ProxyV2.json, jsonOf]

/-- C2 witness: the four resolution branches and the 400 failure, each at a
concrete input. -/
theorem credential_resolution_implemented_order_witness :
    (ProxyV2.resolveCredential (some "Gemini") (some "userkey") envGem
      false).1 = some "userkey"
    ∧ (ProxyV2.resolveCredential (some "Gemini") none envGem false).1 =
        some "envkey"
    ∧ (ProxyV2.resolveCredential (some "Gemini") none envDemo true).1 =
        some "DEMO_MODE_KEY"
    ∧ (ProxyV2.handler (mkReq (some "Gemini") none (some "text") (some "x"))
        envGem oracleOk "T").2.resolvedKey = some "envkey"
    ∧ (ProxyV2.handler (mkReq (some "Gemini") none (some "text") (some "x"))
        envNone oracleOk "T").1.status = 400 :=
  ⟨(credential_resolution_implemented_order.1 (some "Gemini") (some "userkey")
      envGem false (by decide)),
   (credential_resolution_implemented_order.2.1 (some "Gemini") none envGem
      (by decide)).trans (by decide),
   credential_resolution_implemented_order.2.2.1 (some "Gemini") none envDemo
     (by decide),
   (credential_resolution_implemented_order.2.2.2.1
      (mkReq (some "Gemini") none (some "text") (some "x")) envGem oracleOk
      "T" _ rfl rfl).trans (by decide),
   (credential_resolution_implemented_order.2.2.2.2
      (mkReq (some "Gemini") none (some "text") (some "x")) envNone oracleOk
      "T" _ rfl rfl (by decide)).1⟩

/-- C3 counterexample: `Stability AI` with kind `roadmap` (a pair outside the
provider's capability set) does not return 501: the capability rejection is
thrown inside the adapter and caught by the isolation wrapper, yielding 502
— though still with zero outbound calls. -/
theorem stability_kind_mismatch_returns_502_not_501 :
    (ProxyV2.handler (mkReq (some "Stability AI") (some "k") (some "roadmap")
      (some "x")) envNone oracleOk "T").1.status = 502
    ∧ (ProxyV2.handler (mkReq (some "Stability AI") (some "k")
        (some "roadmap") (some "x")) envNone oracleOk "T").1.status ≠ 501
    ∧ (ProxyV2.handler (mkReq (some "Stability AI") (some "k")
        (some "roadmap") (some "x")) envNone oracleOk "T").2.calls = [] :=
  ⟨by decide, by decide, by decide⟩

/-- If an optional string is truthy in the JavaScript sense, coercing it
with `|| ''` / `getD` yields a non-empty string. -/
theorem jsTruthy_getD_ne (o : Option String) (h : jsTruthy o = true) :
    o.getD "" ≠ "" := by
  cases o <;> simp_all [jsTruthy]

/-- C3 amended: permanently-unsupported and unknown providers fail fast with
501 and zero outbound calls — in the 2025 proxy every non-dispatched
provider hits the 501 `unsupported` branch, and in the legacy proxy each of
the four fixed-policy providers (Midjourney, RunwayML, Artbreeder,
Replicate) is answered 501 without fetching, regardless of the supplied
credential; a (provider, kind) pair outside the capability set also makes
no outbound call, but for `Stability AI` in the 2025 proxy it surfaces as a
502 interference response rather than 501. -/
theorem unsupported_providers_fail_fast_no_network :
    (∀ req env up now b p, req.method = "POST" → req.body = .ok b →
      ProxyV2.demoEnabled env = false →
      ProxyV2.normalizeProvider b.provider = some p →
      p ∉ supportedProvidersV2 → p ≠ "" →
      jsTruthy b.type = true →
      jsTruthy (b.payload.bind Payload.prompt) = true →
      jsTruthy (ProxyV2.resolveCredential (some p) b.apiKey env false).1 =
        true →
      (ProxyV2.handler req env up now).1 =
        ProxyV2.json { error := some (p ++ " is not yet supported."),
                       status := some "unsupported" } 501
      ∧ (ProxyV2.handler req env up now).2.calls = [])
    ∧ (∀ (key ty prompt : String) (env : String → Option String)
        (up : Oracle), key ≠ "" → ty ≠ "" →
      ((ProxyV1.handler (mkReq (some "Midjourney") (some key) (some ty)
          (some prompt)) env up).1.status = 501
       ∧ (ProxyV1.handler (mkReq (some "Midjourney") (some key) (some ty)
          (some prompt)) env up).2.calls = [])
      ∧ ((ProxyV1.handler (mkReq (some "RunwayML") (some key) (some ty)
          (some prompt)) env up).1.status = 501
       ∧ (ProxyV1.handler (mkReq (some "RunwayML") (some key) (some ty)
          (some prompt)) env up).2.calls = [])
      ∧ ((ProxyV1.handler (mkReq (some "Artbreeder") (some key) (some ty)
          (some prompt)) env up).1.status = 501
       ∧ (ProxyV1.handler (mkReq (some "Artbreeder") (some key) (some ty)
          (some prompt)) env up).2.calls = [])
      ∧ ((ProxyV1.handler (mkReq (some "Replicate") (some key) (some ty)
          (some prompt)) env up).1.status = 501
       ∧ (ProxyV1.handler (mkReq (some "Replicate") (some key) (some ty)
          (some prompt)) env up).2.calls = []))
    ∧ (∀ key ty pl,
        ProxyV1.handleMidjourney key ty pl =
          (.ok (ProxyV1.jsonBare { error := some "Midjourney orchestration is strictly restricted to valid Discord-bound tokens. Please ensure your Registry credentials are valid or utilize the Gemini engine." } 501), [])
        ∧ ProxyV1.handleRunway key ty pl =
          (.ok (ProxyV1.jsonBare { error := some "RunwayML requires a persistent socket/polling which is restricted in this edge environment. Please use OpenAI or Stability for real-time deconstruction." } 501), [])
        ∧ ProxyV1.handleArtbreeder key ty pl =
          (.ok (ProxyV1.jsonBare { error := some "Artbreeder orchestration requires a valid mixer session. Please manifest utilizing the OpenAI or Stability engines for immediate deconstruction." } 501), [])
        ∧ (key ≠ "" → ProxyV1.handleReplicate key ty pl =
          (.ok (ProxyV1.jsonBare { error := some "Replicate models require async polling not supported in this synchronous edge proxy. Please use Stability AI for immediate results." } 501), []))
        ∧ (ProxyV1.handleReplicate key ty pl).2 = [])
    ∧ (∀ (key ty prompt : String) (env : ProxyV2.Env) (up : Oracle)
        (now : String), key ≠ "" → ty ≠ "" → prompt ≠ "" → ty ≠ "image" →
      ProxyV2.demoEnabled env = false →
      (ProxyV2.handler (mkReq (some "Stability AI") (some key) (some ty)
          (some prompt)) env up now).1.status = 502
      ∧ (ProxyV2.handler (mkReq (some "Stability AI") (some key) (some ty)
          (some prompt)) env up now).2.calls = []) := by
  refine ⟨?_, ?_, ?_, ?_⟩
  · intro req env up now b p hm hb hdemo hnorm hmem hp hty hpr hk
    rcases hrc : ProxyV2.resolveCredential (some p) b.apiKey env false
      with ⟨k, el, ph⟩
    rw [hrc] at hk
    simp only at hk
    simp only [supportedProvidersV2, List.mem_cons, List.not_mem_nil,
      or_false, not_or] at hmem
    obtain ⟨h1, h2, h3, h4, h5⟩ := hmem
    have hps : jsTruthy (some p) = true := by simp [jsTruthy, hp]
    simp only [ProxyV2.handler, hm, hb, hnorm, hdemo, hrc]
    simp only [String.reduceEq, reduceIte, ne_eq, not_false_eq_true, ite_not]
    simp [hty, hpr, hk, h1, h2, h3, h4, h5, hps]
  · intro key ty prompt env up hk hty
    have htys : jsTruthy (some ty) = true := by simp [jsTruthy, hty]
    have hks : jsTruthy (some key) = true := by simp [jsTruthy, hk]
    refine ⟨?_, ?_, ?_, ?_⟩
    · simp only [ProxyV1.handler, mkReq]
      simp only [String.reduceEq, reduceIte, ne_eq, not_false_eq_true,
        ite_not]
      split
      · rename_i hdef
        simp only [Bool.and_eq_true] at hdef
        simp [htys, hdef.2, ProxyV1.dispatch, ProxyV1.handleMidjourney,
          ProxyV1.safeHandle, ProxyV1.jsonBare]
      · simp [htys, hks, ProxyV1.dispatch, ProxyV1.handleMidjourney,
          ProxyV1.safeHandle, ProxyV1.jsonBare]
    · simp only [ProxyV1.handler, mkReq]
      simp only [String.reduceEq, reduceIte, ne_eq, not_false_eq_true,
        ite_not]
      split
      · rename_i hdef
        simp only [Bool.and_eq_true] at hdef
        simp [htys, hdef.2, ProxyV1.dispatch, ProxyV1.handleRunway,
          ProxyV1.safeHandle, ProxyV1.jsonBare]
      · simp [htys, hks, ProxyV1.dispatch, ProxyV1.handleRunway,
          ProxyV1.safeHandle, ProxyV1.jsonBare]
    · simp only [ProxyV1.handler, mkReq]
      simp only [String.reduceEq, reduceIte, ne_eq, not_false_eq_true,
        ite_not]
      split
      · rename_i hdef
        simp only [Bool.and_eq_true] at hdef
        simp [htys, hdef.2, ProxyV1.dispatch, ProxyV1.handleArtbreeder,
          ProxyV1.safeHandle, ProxyV1.jsonBare]
      · simp [htys, hks, ProxyV1.dispatch, ProxyV1.handleArtbreeder,
          ProxyV1.safeHandle, ProxyV1.jsonBare]
    · simp only [ProxyV1.handler, mkReq]
      simp only [String.reduceEq, reduceIte, ne_eq, not_false_eq_true,
        ite_not]
      split
      · rename_i hdef
        simp only [Bool.and_eq_true] at hdef
        have hne := jsTruthy_getD_ne _ hdef.2
        simp [htys, hdef.2, hne, ProxyV1.dispatch, ProxyV1.handleReplicate,
          ProxyV1.safeHandle, ProxyV1.jsonBare]
      · simp [htys, hks, hk, ProxyV1.dispatch, ProxyV1.handleReplicate,
          ProxyV1.safeHandle, ProxyV1.jsonBare]
  · intro key ty pl
    refine ⟨rfl, rfl, rfl, fun hke => ?_, ?_⟩
    · unfold ProxyV1.handleReplicate
      rw [if_neg hke]
    · unfold ProxyV1.handleReplicate
      split <;> rfl
  · intro key ty prompt env up now hk hty hpr hno hdemo
    constructor
    · have := (by
        simp only [ProxyV2.handler, mkReq, ProxyV2.normalizeProvider,
          ProxyV2.resolveCredential, jsTruthy, hdemo, ProxyV2.envDefaultFor]
        simp [hk, hty, hpr, hno, ProxyV2.handleStability, ProxyV2.safe] :
        (ProxyV2.handler (mkReq (some "Stability AI") (some key) (some ty)
            (some prompt)) env up now).1 =
          ProxyV2.json
            { error := some "Interference detected in Stability AI sub-link.",
              details := some "Stability AI only supports image generation.",
              status := some "interference" } 502)
      rw [this]
      rfl
    · simp only [ProxyV2.handler, mkReq, ProxyV2.normalizeProvider,
        ProxyV2.resolveCredential, jsTruthy, hdemo, ProxyV2.envDefaultFor]
      simp [hk, hty, hpr, hno, ProxyV2.handleStability, ProxyV2.safe]

/-- C3 witness: all four legacy fixed-policy providers through the legacy
proxy (501, no calls), Midjourney through the 2025 proxy (501 unsupported),
and the Stability kind mismatch (502, no calls), at concrete inputs. -/
theorem unsupported_providers_fail_fast_no_network_witness :
    ("Midjourney" ∉ supportedProvidersV2)
    ∧ (ProxyV2.handler (mkReq (some "Midjourney") (some "k") (some "image")
        (some "x")) envNone oracleOk "T").1 =
      ProxyV2.json
        { error := some ("Midjourney" ++ " is not yet supported."),
          status := some "unsupported" } 501
    ∧ (ProxyV1.handler (mkReq (some "Midjourney") (some "k") (some "image")
        (some "x")) (fun _ => none) oracleOk).1.status = 501
    ∧ (ProxyV1.handler (mkReq (some "RunwayML") (some "k") (some "image")
        (some "x")) (fun _ => none) oracleOk).1.status = 501
    ∧ (ProxyV1.handler (mkReq (some "Artbreeder") (some "k") (some "image")
        (some "x")) (fun _ => none) oracleOk).1.status = 501
    ∧ (ProxyV1.handler (mkReq (some "Replicate") (some "k") (some "image")
        (some "x")) (fun _ => none) oracleOk).1.status = 501
    ∧ (ProxyV2.handler (mkReq (some "Stability AI") (some "k")
        (some "roadmap") (some "x")) envNone oracleOk "T").1.status = 502 :=
  ⟨by decide,
   (unsupported_providers_fail_fast_no_network.1
      (mkReq (some "Midjourney") (some "k") (some "image") (some "x"))
      envNone oracleOk "T" _ "Midjourney" rfl rfl (by decide) rfl (by decide)
      (by decide) (by decide) (by decide) (by decide)).1,
   (unsupported_providers_fail_fast_no_network.2.1 "k" "image" "x"
      (fun _ => none) oracleOk (by decide) (by decide)).1.1,
   (unsupported_providers_fail_fast_no_network.2.1 "k" "image" "x"
      (fun _ => none) oracleOk (by decide) (by decide)).2.1.1,
   (unsupported_providers_fail_fast_no_network.2.1 "k" "image" "x"
      (fun _ => none) oracleOk (by decide) (by decide)).2.2.1.1,
   (unsupported_providers_fail_fast_no_network.2.1 "k" "image" "x"
      (fun _ => none) oracleOk (by decide) (by decide)).2.2.2.1,
   (unsupported_providers_fail_fast_no_network.2.2.2 "k" "roadmap" "x"
      envNone oracleOk "T" (by decide) (by decide) (by decide) (by decide)
      (by decide)).1⟩

/-- C4 counterexample: a request missing its prompt (with provider Gemini,
no credential, demo off, and a Gemini environment default configured) is
answered 400, yet the credential resolver has already run: the trace records
an environment-default lookup, and the resolved key is the environment
value.  So the resolver is invoked before validation passes, contradicting
the claim. -/
theorem credential_resolver_runs_before_validation :
    (ProxyV2.handler (mkReq (some "Gemini") none (some "text") none) envGem
      oracleOk "T").1.status = 400
    ∧ (jsonOf (ProxyV2.handler (mkReq (some "Gemini") none (some "text")
        none) envGem oracleOk "T").1.body).status = some "invalid_request"
    ∧ (ProxyV2.handler (mkReq (some "Gemini") none (some "text") none) envGem
        oracleOk "T").2.envLookup = true
    ∧ (ProxyV2.handler (mkReq (some "Gemini") none (some "text") none) envGem
        oracleOk "T").2.resolvedKey = some "envkey" :=
  ⟨by decide, by decide, by decide, by decide⟩

/-- C4 amended: any POST request whose provider, type, or payload prompt is
missing or empty is answered 400/`invalid_request`, with no outbound network
call — but credential resolution (environment lookup and placeholder
substitution) happens before validation, not after it. -/
theorem invalid_request_400_no_network :
    ∀ req env up now b, req.method = "POST" → req.body = .ok b →
      (jsTruthy b.provider = false ∨ jsTruthy b.type = false
        ∨ jsTruthy (b.payload.bind Payload.prompt) = false) →
      (ProxyV2.handler req env up now).1.status = 400
      ∧ (jsonOf (ProxyV2.handler req env up now).1.body).status =
          some "invalid_request"
      ∧ (ProxyV2.handler req env up now).2.calls = [] := by
  intro req env up now b hm hb hmiss
  rcases hrc : ProxyV2.resolveCredential (ProxyV2.normalizeProvider b.provider)
      b.apiKey env (ProxyV2.demoEnabled env) with ⟨k, el, ph⟩
  simp only [ProxyV2.handler, hm, hb, hrc]
  simp only [String.reduceEq, reduceIte, ne_eq, not_false_eq_true, ite_not]
  rcases hmiss with h | h | h <;>
    simp [h, jsTruthy_normalize, ProxyV2.json, jsonOf]

/-- C4 witness: a promptless OpenAI request is rejected 400 with no calls. -/
theorem invalid_request_400_no_network_witness :
    jsTruthy ((some { prompt := none } : Option Payload).bind
      Payload.prompt) = false
    ∧ (ProxyV2.handler (mkReq (some "OpenAI") (some "k") (some "roadmap")
        none) envNone oracleOk "T").1.status = 400
    ∧ (ProxyV2.handler (mkReq (some "OpenAI") (some "k") (some "roadmap")
        none) envNone oracleOk "T").2.calls = [] :=
  ⟨by decide,
   (invalid_request_400_no_network
      (mkReq (some "OpenAI") (some "k") (some "roadmap") none) envNone
      oracleOk "T" _ rfl rfl (Or.inr (Or.inr (by decide)))).1,
   (invalid_request_400_no_network
      (mkReq (some "OpenAI") (some "k") (some "roadmap") none) envNone
      oracleOk "T" _ rfl rfl (Or.inr (Or.inr (by decide)))).2.2⟩

/-- C5 counterexample: the `GeminiListModels` success path returns a body
carrying only `models` — neither `result` nor `error` is populated — and the
legacy NanoBanana adapter, when the upstream returns neither `output` nor
`result`, produces a 200 body with neither field as well.  So "exactly one"
fails: some paths populate neither. -/
theorem list_models_response_has_neither_result_nor_error :
    (ProxyV2.handler (mkReq (some "GeminiListModels") (some "k") (some "text")
      (some "x")) envNone oracleModels "T").1 =
      ProxyV2.json { models := some "M" } 200
    ∧ (jsonOf (ProxyV2.handler (mkReq (some "GeminiListModels") (some "k")
        (some "text") (some "x")) envNone oracleModels "T").1.body).result =
        none
    ∧ (jsonOf (ProxyV2.handler (mkReq (some "GeminiListModels") (some "k")
        (some "text") (some "x")) envNone oracleModels "T").1.body).error =
        none
    ∧ (ProxyV1.handler (mkReq (some "NanoBanana") (some "k") (some "image")
        (some "x")) (fun _ => none) oracleOk).1.status = 200
    ∧ (jsonOf (ProxyV1.handler (mkReq (some "NanoBanana") (some "k")
        (some "image") (some "x")) (fun _ => none) oracleOk).1.body).result =
        none
    ∧ (jsonOf (ProxyV1.handler (mkReq (some "NanoBanana") (some "k")
        (some "image") (some "x")) (fun _ => none) oracleOk).1.body).error =
        none :=
  ⟨by decide, by decide, by decide, by decide, by decide, by decide⟩

set_option maxHeartbeats 1000000 in
/-- C5 amended: on every path of both proxies — every adapter success and
failure, every validation or dispatch error, demo mode included — the
response body never populates both `result` and `error`; at most one is set
(but, per the counterexample, sometimes neither). -/
theorem response_never_populates_both_result_and_error :
    (∀ req env up now,
      hasBothResultError (ProxyV2.handler req env up now).1 = false)
    ∧ (∀ req env up,
      hasBothResultError (ProxyV1.handler req env up).1 = false) := by
  constructor
  · intro req env up now
    unfold ProxyV2.handler
    split
    · rfl
    · split
      · rfl
      · split
        · rfl
        · rename_i x b hb
          simp only
          rcases hrc : ProxyV2.resolveCredential
              (ProxyV2.normalizeProvider b.provider) b.apiKey env
              (ProxyV2.demoEnabled env) with ⟨k, el, ph⟩
          simp only
          split
          · rfl
          · split
            · rfl
            · split
              · exact hasBoth_safe_gemini _ _ _ _ _
              · exact hasBoth_safe_openai _ _ _ _ _
              · exact hasBoth_safe_hf _ _ _ _ _
              · exact hasBoth_safe_stability _ _ _ _ _
              · exact hasBoth_safe_listModels _ _ _
              · rfl
  · intro req env up
    unfold ProxyV1.handler
    split
    · rfl
    · split
      · rfl
      · split
        · rfl
        · simp only
          split
          all_goals split
          all_goals try rfl
          all_goals exact hasBoth_sh_dispatch _ _ _ _ _ _

set_option maxRecDepth 8000 in
/-- C6 counterexample: two identical validated demo-mode requests observed
at different instants receive different response bodies — the demo handler
embeds `new Date().toISOString()` — even though the `result` payloads
coincide.  So "identical requests always receive the identical response
payload" fails. -/
theorem demo_responses_differ_across_timestamps :
    (ProxyV2.handler (mkReq (some "Gemini") none (some "text") (some "hi"))
      envDemo oracleOk "T1") ≠
    (ProxyV2.handler (mkReq (some "Gemini") none (some "text") (some "hi"))
      envDemo oracleOk "T2")
    ∧ (jsonOf (ProxyV2.handler (mkReq (some "Gemini") none (some "text")
        (some "hi")) envDemo oracleOk "T1").1.body).timestamp = some "T1"
    ∧ (jsonOf (ProxyV2.handler (mkReq (some "Gemini") none (some "text")
        (some "hi")) envDemo oracleOk "T2").1.body).timestamp = some "T2"
    ∧ (jsonOf (ProxyV2.handler (mkReq (some "Gemini") none (some "text")
        (some "hi")) envDemo oracleOk "T1").1.body).result =
      (jsonOf (ProxyV2.handler (mkReq (some "Gemini") none (some "text")
        (some "hi")) envDemo oracleOk "T2").1.body).result :=
  ⟨by decide, by decide, by decide, by decide⟩

/-- C6 amended: with demo mode enabled the handler's behavior is entirely
independent of the upstream oracle and performs zero outbound calls; the
demo payload is a 200 response tagged `mode = "DEMO"` whose `result` is a
deterministic function of (provider, kind, prompt) — in particular a fixed
string for `roadmap` and a fixed inline SVG image for `image` — but the full
body also embeds the observation timestamp, so only the `result` field (not
the whole body) is identical across identical requests. -/
theorem demo_mode_deterministic_result_no_network :
    (∀ req env (up up2 : Oracle) now, ProxyV2.demoEnabled env = true →
      ProxyV2.handler req env up now = ProxyV2.handler req env up2 now)
    ∧ (∀ req env up now, ProxyV2.demoEnabled env = true →
      (ProxyV2.handler req env up now).2.calls = [])
    ∧ (∀ p ty pl now now2,
      (jsonOf (ProxyV2.demoHandler p ty pl now).body).result =
        (jsonOf (ProxyV2.demoHandler p ty pl now2).body).result)
    ∧ (∀ p ty pl now, (ProxyV2.demoHandler p ty pl now).status = 200
      ∧ (jsonOf (ProxyV2.demoHandler p ty pl now).body).mode = some "DEMO"
      ∧ (jsonOf (ProxyV2.demoHandler p ty pl now).body).timestamp = some now)
    ∧ (∀ p pl now,
      (jsonOf (ProxyV2.demoHandler p "roadmap" pl now).body).result =
        some "Generated learning roadmap: Foundation → Intermediate → Advanced → Mastery"
      ∧ (jsonOf (ProxyV2.demoHandler p "image" pl now).body).result =
        some "data:image/svg+xml,%3Csvg xmlns=\"http://www.w3.org/2000/svg\" width=\"256\" height=\"256\"%3E%3Crect width=\"256\" height=\"256\" fill=\"%234a5568\"/%3E%3Ccircle cx=\"128\" cy=\"128\" r=\"64\" fill=\"%2363b3f5\"/%3E%3C/svg%3E") := by
  refine ⟨?_, ?_, fun p ty pl now now2 => rfl,
    fun p ty pl now => ⟨rfl, rfl, rfl⟩, fun p pl now => ⟨rfl, rfl⟩⟩
  · intro req env up up2 now hd
    unfold ProxyV2.handler
    split
    · rfl
    · split
      · rfl
      · split
        · rfl
        · rename_i x b hb
          simp only
          rcases hrc : ProxyV2.resolveCredential
              (ProxyV2.normalizeProvider b.provider) b.apiKey env
              (ProxyV2.demoEnabled env) with ⟨k, el, ph⟩
          simp only
          rw [hd]
          split
          · rfl
          · rfl
  · intro req env up now hd
    unfold ProxyV2.handler
    split
    · rfl
    · split
      · rfl
      · split
        · rfl
        · rename_i x b hb
          simp only
          rcases hrc : ProxyV2.resolveCredential
              (ProxyV2.normalizeProvider b.provider) b.apiKey env
              (ProxyV2.demoEnabled env) with ⟨k, el, ph⟩
          simp only
          rw [hd]
          split
          · rfl
          · rfl

/-- C6 witness: a validated demo-mode Stability AI image request with no
credential, under two different oracles, yields the same 200 response with
the synthetic image and no calls. -/
theorem demo_mode_deterministic_result_no_network_witness :
    ProxyV2.demoEnabled envDemo = true
    ∧ ProxyV2.handler (mkReq (some "Stability AI") none (some "image")
        (some "x")) envDemo oracleOk "T" =
      ProxyV2.handler (mkReq (some "Stability AI") none (some "image")
        (some "x")) envDemo oracleDown "T"
    ∧ (ProxyV2.handler (mkReq (some "Stability AI") none (some "image")
        (some "x")) envDemo oracleOk "T").2.calls = [] :=
  ⟨by decide,
   demo_mode_deterministic_result_no_network.1
     (mkReq (some "Stability AI") none (some "image") (some "x")) envDemo
     oracleOk oracleDown "T" (by decide),
   demo_mode_deterministic_result_no_network.2.1
     (mkReq (some "Stability AI") none (some "image") (some "x")) envDemo
     oracleOk "T" (by decide)⟩

/-- C7: the code cannot deliver the claimed pre-flight answer.  The OPTIONS
branch — reached before any body parsing, for every request body — executes
`json(\x7b\x7d, 204)`, i.e. `new Response(JSON.stringify(\x7b\x7d),
\x7b status: 204, headers: corsHeaders \x7d)`: a non-null two-byte body
`"\x7b\x7d"` combined with the null-body status 204.  The Fetch standard's
`Response` constructor, which the targeted edge runtime enforces, throws a
TypeError on exactly this combination, and the OPTIONS branch lies outside
the handler's try/catch — so the pre-flight request surfaces as an
unhandled error instead of the claimed 204-with-CORS.  The conjuncts below
show: the branch's payload is `json \x7b\x7d 204` for every body; that
payload's serialized body is the non-empty string "\x7b\x7d"; 204 is a
null-body status; and the Fetch-conformant construction of that very
payload errors rather than producing a response. -/
theorem options_branch_response_construction_throws :
    (∀ (bd : Except String ReqBody) env up now,
      (ProxyV2.handler { method := "OPTIONS", body := bd } env up now).1 =
        ProxyV2.json {} 204
      ∧ (ProxyV2.handler { method := "OPTIONS", body := bd } env up now).2 =
        ProxyV2.emptyTrace)
    ∧ serializeBody (ProxyV2.json {} 204).body = "\x7b\x7d"
    ∧ ("\x7b\x7d" : String) ≠ ""
    ∧ nullBodyStatus 204 = true
    ∧ ProxyV2.jsonFetch {} 204 =
        .error "Response constructor: Invalid response status code"
    ∧ ProxyV2.jsonFetch {} 200 = .ok (ProxyV2.json {} 200) :=
  ⟨fun bd env up now => ⟨rfl, rfl⟩, by decide, by decide, by decide, rfl,
   rfl⟩

/-- C8 counterexample: `GEMINI` (a spelling of a known provider differing
only in letter case) is not recognized: it falls through to the 501
`unsupported` branch while `Gemini` reaches the Gemini adapter and answers
200 — so case-insensitive normalization fails. -/
theorem uppercase_alias_not_normalized :
    (ProxyV2.handler (mkReq (some "GEMINI") (some "k") (some "text")
      (some "x")) envNone oracleOk "T").1.status = 501
    ∧ (ProxyV2.handler (mkReq (some "Gemini") (some "k") (some "text")
        (some "x")) envNone oracleOk "T").1.status = 200
    ∧ (ProxyV2.handler (mkReq (some "GEMINI") (some "k") (some "text")
        (some "x")) envNone oracleOk "T").1 ≠
      (ProxyV2.handler (mkReq (some "Gemini") (some "k") (some "text")
        (some "x")) envNone oracleOk "T").1 :=
  ⟨by decide, by decide, by decide⟩

/-- C8 amended: normalization rewrites exactly the four all-lowercase
aliases `gemini`, `openai`, `huggingface`, `stability` to their canonical
provider names — requests with those aliases are handled identically to the
canonical spelling, traces included — and leaves every other spelling
(including other case variants and whitespace variants) unchanged. -/
theorem lowercase_aliases_route_identically :
    (∀ k t pr env up now,
      ProxyV2.handler (mkReq (some "gemini") k t pr) env up now =
        ProxyV2.handler (mkReq (some "Gemini") k t pr) env up now)
    ∧ (∀ k t pr env up now,
      ProxyV2.handler (mkReq (some "openai") k t pr) env up now =
        ProxyV2.handler (mkReq (some "OpenAI") k t pr) env up now)
    ∧ (∀ k t pr env up now,
      ProxyV2.handler (mkReq (some "huggingface") k t pr) env up now =
        ProxyV2.handler (mkReq (some "Hugging Face") k t pr) env up now)
    ∧ (∀ k t pr env up now,
      ProxyV2.handler (mkReq (some "stability") k t pr) env up now =
        ProxyV2.handler (mkReq (some "Stability AI") k t pr) env up now)
    ∧ (∀ s, ProxyV2.normalizeProvider (some s) =
        some (if s = "gemini" then "Gemini"
          else if s = "openai" then "OpenAI"
          else if s = "huggingface" then "Hugging Face"
          else if s = "stability" then "Stability AI"
          else s)) := by
  refine ⟨fun k t pr env up now => rfl, fun k t pr env up now => rfl,
    fun k t pr env up now => rfl, fun k t pr env up now => rfl, ?_⟩
  intro s
  unfold ProxyV2.normalizeProvider
  split <;> simp_all

/-- The demo handler always answers with HTTP 200. -/
theorem demoHandler_status (p ty : String) (pl : Payload) (now : String) :
    (ProxyV2.demoHandler p ty pl now).status = 200 := rfl

/-- The demo handler always tags its body with `mode = "DEMO"`. -/
theorem demoHandler_mode (p ty : String) (pl : Payload) (now : String) :
    (jsonOf (ProxyV2.demoHandler p ty pl now).body).mode = some "DEMO" := rfl

/-- C9: with demo mode enabled the demo handler runs before the provider
dispatch switch, so no request whatsoever can reach the 501 `unsupported`
branch, and every request passing validation — any provider string,
including permanently-unsupported ones like Midjourney and entirely unknown
ones — receives HTTP 200 with a mock payload tagged as demo. -/
theorem demo_mode_handles_all_providers_200 :
    (∀ req env up now, ProxyV2.demoEnabled env = true →
      (ProxyV2.handler req env up now).1.status ≠ 501)
    ∧ (∀ req env up now b, ProxyV2.demoEnabled env = true →
      req.method = "POST" → req.body = .ok b →
      jsTruthy b.provider = true → jsTruthy b.type = true →
      jsTruthy (b.payload.bind Payload.prompt) = true →
      (ProxyV2.handler req env up now).1.status = 200
      ∧ (jsonOf (ProxyV2.handler req env up now).1.body).mode =
          some "DEMO") := by
  constructor
  · intro req env up now hd
    unfold ProxyV2.handler
    split
    · simp [ProxyV2.json]
    · split
      · simp [ProxyV2.json]
      · split
        · simp [ProxyV2.json]
        · rename_i x b hb
          simp only
          rcases hrc : ProxyV2.resolveCredential
              (ProxyV2.normalizeProvider b.provider) b.apiKey env
              (ProxyV2.demoEnabled env) with ⟨k, el, ph⟩
          simp only
          rw [hd]
          split
          · simp [ProxyV2.json]
          · simp [demoHandler_status]
  · intro req env up now b hd hm hb hp hty hpr
    have hk := resolve_demo_truthy (ProxyV2.normalizeProvider b.provider)
      b.apiKey env
    rcases hrc : ProxyV2.resolveCredential
        (ProxyV2.normalizeProvider b.provider) b.apiKey env true
      with ⟨k, el, ph⟩
    rw [hrc] at hk
    simp only at hk
    have hpn : jsTruthy (ProxyV2.normalizeProvider b.provider) = true := by
      rw [jsTruthy_normalize]
      exact hp
    simp only [ProxyV2.handler, hm, hb, hd, hrc]
    simp only [String.reduceEq, reduceIte, ne_eq, not_false_eq_true, ite_not]
    simp [hpn, hty, hpr, hk, demoHandler_status, demoHandler_mode]

/-- C9 witness: in demo mode a Midjourney request (permanently unsupported
outside demo mode) and an entirely unknown provider both get 200/DEMO, and
neither hits 501. -/
theorem demo_mode_handles_all_providers_200_witness :
    (ProxyV2.handler (mkReq (some "Midjourney") none (some "image")
      (some "x")) envDemo oracleOk "T").1.status ≠ 501
    ∧ (ProxyV2.handler (mkReq (some "Midjourney") none (some "image")
        (some "x")) envDemo oracleOk "T").1.status = 200
    ∧ (jsonOf (ProxyV2.handler (mkReq (some "Midjourney") none (some "image")
        (some "x")) envDemo oracleOk "T").1.body).mode = some "DEMO"
    ∧ (ProxyV2.handler (mkReq (some "TotallyUnknown") none (some "text")
        (some "x")) envDemo oracleOk "T").1.status = 200 :=
  ⟨demo_mode_handles_all_providers_200.1
     (mkReq (some "Midjourney") none (some "image") (some "x")) envDemo
     oracleOk "T" (by decide),
   (demo_mode_handles_all_providers_200.2
     (mkReq (some "Midjourney") none (some "image") (some "x")) envDemo
     oracleOk "T" _ (by decide) rfl rfl (by decide) (by decide)
     (by decide)).1,
   (demo_mode_handles_all_providers_200.2
     (mkReq (some "Midjourney") none (some "image") (some "x")) envDemo
     oracleOk "T" _ (by decide) rfl rfl (by decide) (by decide)
     (by decide)).2,
   (demo_mode_handles_all_providers_200.2
     (mkReq (some "TotallyUnknown") none (some "text") (some "x")) envDemo
     oracleOk "T" _ (by decide) rfl rfl (by decide) (by decide)
     (by decide)).1⟩

/-- A truthy possibly-absent string is `some` of its default-extraction. -/
theorem jsTruthy_some_getD (o : Option String) (h : jsTruthy o = true) :
    o = some (o.getD "") := by
  cases o with
  | none => simp [jsTruthy] at h
  | some s => rfl

/-- Every outbound call of the legacy provider switch carries the key the
switch was given. -/
theorem authKey_dispatch (p key ty : String) (pl : Payload) (up : Oracle) :
    ∀ c ∈ (ProxyV1.dispatch p key ty pl up).2, c.authKey = key := by
  intro c hc
  unfold ProxyV1.dispatch at hc
  split at hc
  · exact authKey_v1_gemini _ _ _ _ c hc
  · exact authKey_v1_openai _ _ _ _ c hc
  · exact authKey_v1_stability _ _ _ _ c hc
  · exact authKey_v1_stability _ _ _ _ c hc
  · exact authKey_v1_hf _ _ _ _ c hc
  · exact authKey_v1_deepai _ _ _ _ c hc
  · exact authKey_v1_nanobanana _ _ _ _ c hc
  · simp [ProxyV1.handleArtbreeder] at hc
  · simp [ProxyV1.handleMidjourney] at hc
  · simp [ProxyV1.handleRunway] at hc
  · unfold ProxyV1.handleReplicate at hc
    split at hc <;> simp at hc
  · simp [ProxyV1.handleGeneric] at hc

/-- C10: in the legacy proxy, a supplied apiKey of literally `"DEFAULT"` is
treated as if no credential was supplied.  The resolved key is the
provider's environment default whenever that default is truthy, and the
literal `"DEFAULT"` otherwise (which, being non-empty, survives the
presence check); and the credential attached to every outbound upstream
call is exactly the resolved key. -/
theorem default_sentinel_replaced_by_env_default :
    (∀ (p : String) (ty : Option String) (pl : Option Payload)
      (env : String → Option String) (up : Oracle),
      (ProxyV1.handler
        { method := "POST",
          body := .ok { provider := some p, apiKey := some "DEFAULT",
                        type := ty, payload := pl } } env up).2.resolvedKey =
      (if jsTruthy (env (ProxyV1.envKeyName p)) then env (ProxyV1.envKeyName p)
       else some "DEFAULT"))
    ∧ (∀ (p : String) (ty : Option String) (pl : Option Payload)
      (env : String → Option String) (up : Oracle) (c : UpstreamCall),
      c ∈ (ProxyV1.handler
        { method := "POST",
          body := .ok { provider := some p, apiKey := some "DEFAULT",
                        type := ty, payload := pl } } env up).2.calls →
      some c.authKey =
        (ProxyV1.handler
          { method := "POST",
            body := .ok { provider := some p, apiKey := some "DEFAULT",
                          type := ty, payload := pl } } env up).2.resolvedKey)
    ∧ jsTruthy (some "DEFAULT") = true := by
  refine ⟨?_, ?_, by decide⟩
  · intro p ty pl env up
    simp only [ProxyV1.handler]
    simp only [String.reduceEq, reduceIte, ne_eq, not_false_eq_true, ite_not]
    have h1 : (!jsTruthy (some "DEFAULT")
        || ((some "DEFAULT" : Option String) == some "DEFAULT")) = true := by
      decide
    rw [h1]
    cases hd : jsTruthy (env (ProxyV1.envKeyName p)) with
    | true =>
        simp only [hd, Bool.and_true, reduceIte]
        split
        all_goals rfl
    | false =>
        simp only [hd, Bool.and_false, reduceIte]
        split
        all_goals simp_all
        all_goals split
        all_goals rfl
  · intro p ty pl env up c
    simp only [ProxyV1.handler]
    simp only [String.reduceEq, reduceIte, ne_eq, not_false_eq_true, ite_not]
    have h1 : (!jsTruthy (some "DEFAULT")
        || ((some "DEFAULT" : Option String) == some "DEFAULT")) = true := by
      decide
    rw [h1]
    cases hd : jsTruthy (env (ProxyV1.envKeyName p)) with
    | true =>
        simp only [hd, Bool.and_true, reduceIte]
        split
        · intro hc
          simp at hc
        · intro hc
          have ha := authKey_dispatch p ((env (ProxyV1.envKeyName p)).getD "")
            (ty.getD "") (pl.getD { prompt := none }) up c hc
          rw [ha]
          exact (jsTruthy_some_getD _ hd).symm
    | false =>
        simp only [hd, Bool.and_false, reduceIte]
        split
        · rename_i hfa
          exact absurd hfa (by decide)
        · split
          · intro hc
            simp at hc
          · intro hc
            have ha := authKey_dispatch p
              ((some "DEFAULT" : Option String).getD "") (ty.getD "")
              (pl.getD { prompt := none }) up c hc
            rw [ha]
            rfl

/-- C10 witness: with a Gemini environment default `"envk"` present, the
supplied `"DEFAULT"` is replaced — the trace resolves to `envk` and the
outbound Gemini call authenticates with it; with no environment default the
literal `"DEFAULT"` itself is the resolved key. -/
theorem default_sentinel_replaced_by_env_default_witness :
    (ProxyV1.handler
      { method := "POST",
        body := .ok { provider := some "Gemini", apiKey := some "DEFAULT",
                      type := some "text",
                      payload := some { prompt := some "x" } } }
      (fun s => if s = "GEMINI_API_KEY" then some "envk" else none)
      oracleOk).2.resolvedKey = some "envk"
    ∧ (ProxyV1.handler
      { method := "POST",
        body := .ok { provider := some "Gemini", apiKey := some "DEFAULT",
                      type := some "text",
                      payload := some { prompt := some "x" } } }
      (fun _ => none) oracleOk).2.resolvedKey = some "DEFAULT"
    ∧ some ({ url := "https://generativelanguage.googleapis.com/v1beta/models/gemini-1.5-flash:generateContent?key=envk",
              method := "POST", authKey := "envk",
              prompt := some "x" } : UpstreamCall).authKey =
      (ProxyV1.handler
        { method := "POST",
          body := .ok { provider := some "Gemini", apiKey := some "DEFAULT",
                        type := some "text",
                        payload := some { prompt := some "x" } } }
        (fun s => if s = "GEMINI_API_KEY" then some "envk" else none)
        oracleOk).2.resolvedKey :=
  ⟨(default_sentinel_replaced_by_env_default.1 "Gemini" (some "text")
      (some { prompt := some "x" })
      (fun s => if s = "GEMINI_API_KEY" then some "envk" else none)
      oracleOk).trans (by decide),
   (default_sentinel_replaced_by_env_default.1 "Gemini" (some "text")
      (some { prompt := some "x" }) (fun _ => none) oracleOk).trans
     (by decide),
   default_sentinel_replaced_by_env_default.2.1 "Gemini" (some "text")
     (some { prompt := some "x" })
     (fun s => if s = "GEMINI_API_KEY" then some "envk" else none) oracleOk
     { url := "https://generativelanguage.googleapis.com/v1beta/models/gemini-1.5-flash:generateContent?key=envk",
       method := "POST", authKey := "envk", prompt := some "x" }
     (by decide)⟩
